import Mathlib

/-!
Verification of the behavioral biometric feature extractor
(`BiometricCollector` in the login component of the fraud-detection
front-end).

The collector accumulates mouse samples and keystroke timing records
during a login session and reduces them on demand to a summary of
aggregate metrics.  The embedding below translates the collector's
event handlers (`trackMouse`, `trackKeyDown`, `trackKeyUp`), its
`reset`, and its reducer `getBiometrics` into pure Lean functions over
an explicit session state.  JavaScript numbers that can become NaN are
modelled by the type `JSNum` (`Date.now() - undefined` is NaN in
JavaScript, and NaN propagates through arithmetic); all other numeric
fields are exact integers, rationals, or reals, with `Real.sqrt`
standing in for `Math.sqrt`.
-/

/-- Numeric value as produced by JavaScript arithmetic: either an ordinary
number (modelled as a rational) or NaN.  Arithmetic on `JSNum` propagates
NaN, mirroring IEEE semantics for the operations the collector performs. -/
inductive JSNum where
  | nan : JSNum
  | num : ℚ → JSNum
deriving DecidableEq, Repr

/-- Subtraction of JavaScript numbers: NaN if either operand is NaN. -/
def jsSub : JSNum → JSNum → JSNum
  | JSNum.num a, JSNum.num b => JSNum.num (a - b)
  | _, _ => JSNum.nan

/-- Addition of JavaScript numbers: NaN if either operand is NaN. -/
def jsAdd : JSNum → JSNum → JSNum
  | JSNum.num a, JSNum.num b => JSNum.num (a + b)
  | _, _ => JSNum.nan

/-- Division of JavaScript numbers.  NaN operands propagate.  The collector
only ever divides by a strictly positive list length, so the zero-divisor
branch (where JavaScript would produce an infinity) is unreachable; it is
mapped to NaN here. -/
def jsDiv : JSNum → JSNum → JSNum
  | JSNum.num a, JSNum.num b => if b = 0 then JSNum.nan else JSNum.num (a / b)
  | _, _ => JSNum.nan

/-- Truth of `x >= 0` for a JavaScript number: holds only for an ordinary
nonnegative number, never for NaN. -/
def JSNum.nonneg (x : JSNum) : Prop := ∃ a : ℚ, x = JSNum.num a ∧ 0 ≤ a

instance : DecidablePred JSNum.nonneg := fun x =>
  match x with
  | JSNum.nan => Decidable.isFalse (by rintro ⟨a, h, _⟩; exact JSNum.noConfusion h)
  | JSNum.num a =>
      if h : 0 ≤ a then Decidable.isTrue ⟨a, rfl, h⟩
      else Decidable.isFalse (by rintro ⟨b, hb, hb0⟩; cases hb; exact h hb0)

/-- Mouse sample pushed by `trackMouse`: client coordinates, elapsed time
`t = Date.now() - startTime` in milliseconds, and page coordinates. -/
structure MouseSample where
  x : ℤ
  y : ℤ
  t : ℤ
  pageX : ℤ
  pageY : ℤ
deriving DecidableEq, Repr

/-- Pending key-down marker stored in `lastKeyDown`: absolute timestamp,
key identifier, and physical key code. -/
structure KeydownMarker where
  time : ℤ
  key : String
  code : String
deriving DecidableEq, Repr

/-- Keystroke record pushed by `trackKeyUp`.  These are exactly the fields
the source creates: `key`, `dwellTime`, `flightTime` — and nothing else; in
particular no capture-time field `t` is ever stored. -/
structure KeystrokeRecord where
  key : String
  dwellTime : ℤ
  flightTime : JSNum
deriving DecidableEq, Repr

/-- JavaScript property access `r.t` on a keystroke record.  `trackKeyUp`
creates records with only `key`, `dwellTime` and `flightTime`, so reading
`.t` yields `undefined`, which coerces to NaN in every arithmetic context
in which the collector uses it (`Date.now() - r.t` and `r.t - prev.t`). -/
def KeystrokeRecord.t (_ : KeystrokeRecord) : JSNum := JSNum.nan

/-- Mutable state of one `BiometricCollector` instance. -/
structure CollectorState where
  mouseMovements : List MouseSample
  keystrokeTimings : List KeystrokeRecord
  lastKeyDown : Option KeydownMarker
  startTime : ℤ
deriving DecidableEq, Repr

/-- Fields of a browser mouse event that `trackMouse` reads. -/
structure MouseEventData where
  clientX : ℤ
  clientY : ℤ
  pageX : ℤ
  pageY : ℤ
deriving DecidableEq, Repr

/-- Fields of a browser keyboard event that the key handlers read.
`key` is `none` when `event.key` is undefined (the handler defends against
this), and `keyRepeat` models `event.repeat` (renamed: `repeat` is reserved
in Lean). -/
structure KeyEventData where
  key : Option String
  code : String
  keyRepeat : Bool
deriving DecidableEq, Repr

/-- Method `reset()`: clears all accumulators and restarts the start-time
clock at the current instant `now`. -/
def reset (now : ℤ) : CollectorState :=
  { mouseMovements := []
    keystrokeTimings := []
    lastKeyDown := none
    startTime := now }

/-- Handler `trackMouse`: appends a mouse sample with client coordinates,
elapsed time since start, and page coordinates. -/
def trackMouse (s : CollectorState) (e : MouseEventData) (now : ℤ) : CollectorState :=
  { s with mouseMovements := s.mouseMovements ++
      [{ x := e.clientX
         y := e.clientY
         t := now - s.startTime
         pageX := e.pageX
         pageY := e.pageY }] }

/-- Handler `trackKeyDown`: ignores the event when `e.key` is missing or
falsy (empty string), is longer than one character, or the event is an
auto-repeat; otherwise overwrites `lastKeyDown` with a fresh marker. -/
def trackKeyDown (s : CollectorState) (e : KeyEventData) (now : ℤ) : CollectorState :=
  match e.key with
  | none => s
  | some k =>
      if k = "" ∨ 1 < k.length ∨ e.keyRepeat then s
      else { s with lastKeyDown := some { time := now, key := k, code := e.code } }

/-- Handler `trackKeyUp`: returns unchanged when there is no pending marker
or the released key differs from the marker's key; otherwise appends a
keystroke record with `dwellTime = now - marker.time` and
`flightTime = now - last.t` when a previous record exists (`0` for the
first record).  Note the source reads `.t` from the previous record — a
field keystroke records do not have — and it does not clear `lastKeyDown`. -/
def trackKeyUp (s : CollectorState) (e : KeyEventData) (now : ℤ) : CollectorState :=
  match s.lastKeyDown with
  | none => s
  | some marker =>
      match e.key with
      | none => s
      | some k =>
          if k ≠ marker.key then s
          else
            { s with keystrokeTimings := s.keystrokeTimings ++
                [{ key := k
                   dwellTime := now - marker.time
                   flightTime :=
                     match s.keystrokeTimings.getLast? with
                     | some prev => jsSub (JSNum.num (now : ℚ)) prev.t
                     | none => JSNum.num 0 }] }

/-- Horizontal displacement of a consecutive pair of mouse samples
(`dx` in the summary loop). -/
def pairDx (pr : MouseSample × MouseSample) : ℤ := pr.2.x - pr.1.x

/-- Vertical displacement of a consecutive pair of mouse samples
(`dy` in the summary loop). -/
def pairDy (pr : MouseSample × MouseSample) : ℤ := pr.2.y - pr.1.y

/-- Time delta of a consecutive pair of mouse samples in seconds
(`dt` in the summary loop: millisecond difference divided by 1000). -/
def pairDt (pr : MouseSample × MouseSample) : ℚ :=
  ((pr.2.t - pr.1.t : ℤ) : ℚ) / 1000

/-- Euclidean distance of a consecutive pair of mouse samples
(`Math.sqrt (dx*dx + dy*dy)` in the summary loop). -/
noncomputable def pairDist (pr : MouseSample × MouseSample) : ℝ :=
  Real.sqrt ((pairDx pr * pairDx pr + pairDy pr * pairDy pr : ℤ) : ℝ)

/-- Instantaneous velocity recorded in the movement-pattern entry of a
consecutive pair: `distance / dt` when `dt > 0`, else `0`. -/
noncomputable def pairV (pr : MouseSample × MouseSample) : ℝ :=
  if 0 < pairDt pr then pairDist pr / (pairDt pr : ℝ) else 0

/-- Entry of `movementPattern`: displacement, time delta in seconds, and
guarded instantaneous velocity. -/
structure PatternEntry where
  dx : ℤ
  dy : ℤ
  dt : ℚ
  v : ℝ

/-- Mouse aggregate of the summary.  `totalDistance` is an `Option`
because the source assigns the field only inside the
`length > 1` branch: with fewer than two samples the JavaScript object
simply lacks the property (it is `undefined`, modelled as `none`). -/
structure MouseMetrics where
  movementCount : ℕ
  avgVelocity : ℝ
  movementPattern : List PatternEntry
  totalDistance : Option ℝ

/-- Keyboard aggregate of the summary.  `avgFlightTime` is a `JSNum`
because the flight-time deltas are computed from the records' nonexistent
`.t` field and can be NaN. -/
structure KeyboardMetrics where
  keystrokeCount : ℕ
  avgDwellTime : ℚ
  avgFlightTime : JSNum
  keyPattern : List String
deriving DecidableEq, Repr

/-- Environment read once at summary time: user agent, screen size, and
the current ISO timestamp. -/
structure Env where
  userAgent : String
  screenWidth : ℕ
  screenHeight : ℕ
  nowISO : String
deriving DecidableEq, Repr

/-- Summary object returned by `getBiometrics`. -/
structure BiometricSummary where
  sessionDuration : ℤ
  mouse : MouseMetrics
  keyboard : KeyboardMetrics
  userAgent : String
  screenResolution : String
  collectedAt : String

/-- Mouse part of `getBiometrics`: with more than one sample, the loop
over consecutive pairs accumulates total distance, collects the velocity
`distance / dt` of every pair with `dt > 0`, and pushes one pattern entry
per pair; the average velocity divides by the number of collected
velocities only.  With at most one sample the initial object is returned
unchanged, its `totalDistance` property never assigned. -/
noncomputable def mouseMetricsOf (ms : List MouseSample) : MouseMetrics :=
  if 1 < ms.length then
    let pairs := ms.zip ms.tail
    let velocities :=
      (pairs.filter (fun pr => decide (0 < pairDt pr))).map
        (fun pr => pairDist pr / (pairDt pr : ℝ))
    { movementCount := ms.length
      avgVelocity :=
        if 0 < velocities.length then velocities.sum / (velocities.length : ℝ) else 0
      movementPattern :=
        pairs.map (fun pr => { dx := pairDx pr, dy := pairDy pr, dt := pairDt pr, v := pairV pr })
      totalDistance := some ((pairs.map pairDist).sum) }
  else
    { movementCount := ms.length
      avgVelocity := 0
      movementPattern := []
      totalDistance := none }

/-- Keyboard part of `getBiometrics`: average dwell time is the mean of
the stored `dwellTime` values; the flight-time list recomputes
`record.t - previous.t` over consecutive records (both reads of the
nonexistent `.t` field, hence NaN for every delta), and the average flight
time divides their sum by their count when at least one delta exists. -/
def keyboardMetricsOf (l : List KeystrokeRecord) : KeyboardMetrics :=
  { keystrokeCount := l.length
    avgDwellTime :=
      if 0 < l.length then
        (l.foldl (fun sum ks => sum + (ks.dwellTime : ℚ)) 0) / (l.length : ℚ)
      else 0
    avgFlightTime :=
      if 0 < l.length then
        let flightTimes := List.zipWith (fun ks prev => jsSub ks.t prev.t) (l.drop 1) l
        if 0 < flightTimes.length then
          jsDiv (flightTimes.foldl jsAdd (JSNum.num 0)) (JSNum.num (flightTimes.length : ℚ))
        else JSNum.num 0
      else JSNum.num 0
    keyPattern := l.map (fun ks => ks.key) }

/-- Method `getBiometrics()`: reduces the accumulated state to a summary.
The body only reads the instance fields; every mutation in the source
targets objects local to the call (`mouseMetrics`, `keyboardMetrics`). -/
noncomputable def getBiometrics (s : CollectorState) (now : ℤ) (env : Env) : BiometricSummary :=
  { sessionDuration := now - s.startTime
    mouse := mouseMetricsOf s.mouseMovements
    keyboard := keyboardMetricsOf s.keystrokeTimings
    userAgent := env.userAgent
    screenResolution := toString env.screenWidth ++ "x" ++ toString env.screenHeight
    collectedAt := env.nowISO }

/-- Call of `getBiometrics` viewed as a state transformer.  The source
method assigns to no instance field and calls no mutating operation on
one (the `push` calls in the body target the local `mouseMetrics` object),
so the state component passes through unchanged. -/
noncomputable def getBiometricsRun (s : CollectorState) (now : ℤ) (env : Env) :
    CollectorState × BiometricSummary :=
  (s, getBiometrics s now env)

/-- Average velocity exactly as the claim words it: the mean of the
instantaneous velocities of ALL consecutive sample pairs, a pair with a
nonpositive time delta contributing velocity `0`, and `0` when there are
no pairs.  This definition follows the claim's sentence, not the source;
it is compared against `mouseMetricsOf` below. -/
noncomputable def claimedAvgVelocity (ms : List MouseSample) : ℝ :=
  let pairs := ms.zip ms.tail
  if pairs = [] then 0 else (pairs.map pairV).sum / (pairs.length : ℝ)

/-- Average velocity as the source actually computes it, restated from the
amended claim: the mean of the instantaneous velocities of the consecutive
pairs whose time delta is strictly positive, and `0` when there is no such
pair. -/
noncomputable def specAvgVelocityPos (ms : List MouseSample) : ℝ :=
  let vs := (ms.zip ms.tail).filterMap
    (fun pr => if 0 < pairDt pr then some (pairDist pr / (pairDt pr : ℝ)) else none)
  if vs = [] then 0 else vs.sum / (vs.length : ℝ)

/-- Erasure of the fields `getBiometrics` must not depend on: the page
coordinates of a mouse sample. -/
def scrubSample (m : MouseSample) : MouseSample := { m with pageX := 0, pageY := 0 }

/-- Erasure of the `code` field of a pending key-down marker. -/
def scrubMarker (k : KeydownMarker) : KeydownMarker := { k with code := "" }

/-- Erasure of all state components outside the claimed dependency set of
`getBiometrics`: page coordinates of every stored mouse sample and the
`code` of the pending marker.  Two states differ only in those fields
exactly when their scrubs are equal. -/
def scrub (s : CollectorState) : CollectorState :=
  { s with mouseMovements := s.mouseMovements.map scrubSample
           lastKeyDown := s.lastKeyDown.map scrubMarker }

/-- Fold of `trackKeyUp` over a list of key-up events paired with their
arrival times. -/
def applyKeyUps (s : CollectorState) (evs : List (KeyEventData × ℤ)) : CollectorState :=
  evs.foldl (fun st p => trackKeyUp st p.1 p.2) s

/-- Concrete key event for the single-character key "a" (not a repeat). -/
def evA : KeyEventData := { key := some "a", code := "KeyA", keyRepeat := false }

/-- Concrete key event for the single-character key "b" (not a repeat). -/
def evB : KeyEventData := { key := some "b", code := "KeyB", keyRepeat := false }

/-- Concrete environment used by the closed evaluation theorems. -/
def env0 : Env :=
  { userAgent := "UA", screenWidth := 1920, screenHeight := 1080, nowISO := "2026-01-01T00:00:00Z" }

/-- State after a correctly ordered sequence of two complete keystrokes:
key-down "a" at 0, key-up "a" at 100, key-down "b" at 200, key-up "b"
at 300.  Every key-up follows its matching key-down and the records are
captured in increasing time order. -/
def twoKeystrokeState : CollectorState :=
  trackKeyUp (trackKeyDown (trackKeyUp (trackKeyDown (reset 0) evA 0) evA 100) evB 200) evB 300

/-- State after a single qualifying key-down of "a" at time 0. -/
def oneDownState : CollectorState := trackKeyDown (reset 0) evA 0

/-- Mouse sample at the origin at elapsed time 0. -/
def m00 : MouseSample := { x := 0, y := 0, t := 0, pageX := 0, pageY := 0 }

/-- Mouse sample at (3, 4) at elapsed time 1000 ms. -/
def m34 : MouseSample := { x := 3, y := 4, t := 1000, pageX := 0, pageY := 0 }

/-- Mouse sample at (1, 1) at elapsed time 0, used to form a pair with
time delta 0. -/
def m11z : MouseSample := { x := 1, y := 1, t := 0, pageX := 0, pageY := 0 }

/-- Concrete state used by the independence witness: one mouse sample with
page coordinates (10, 11) and a pending marker with code "KeyA". -/
def sPage1 : CollectorState :=
  { mouseMovements := [{ x := 1, y := 2, t := 3, pageX := 10, pageY := 11 }]
    keystrokeTimings := []
    lastKeyDown := some { time := 0, key := "a", code := "KeyA" }
    startTime := 0 }

/-- Concrete state that agrees with `sPage1` except in the page coordinates
of its sample and the `code` of its marker. -/
def sPage2 : CollectorState :=
  { mouseMovements := [{ x := 1, y := 2, t := 3, pageX := 99, pageY := 98 }]
    keystrokeTimings := []
    lastKeyDown := some { time := 0, key := "a", code := "Other" }
    startTime := 0 }

/-- Rewriting of a guarded `filterMap` as a `filter` followed by a `map`. -/
theorem filterMap_guard_eq_map_filter {α β : Type} (p : α → Prop) [DecidablePred p]
    (f : α → β) (l : List α) :
    l.filterMap (fun a => if p a then some (f a) else none)
      = (l.filter (fun a => decide (p a))).map f := by
  induction l with
  | nil => simp
  | cons a t ih => by_cases h : p a <;> simp [List.filterMap_cons, List.filter_cons, h, ih]

/-- Tail of a list of length at most one is empty. -/
theorem tail_eq_nil_of_le_one {α : Type} {l : List α} (h : ¬ 1 < l.length) : l.tail = [] := by
  cases l with
  | nil => rfl
  | cons a t =>
      cases t with
      | nil => rfl
      | cons b u => exact absurd (by simp only [List.length_cons]; omega) h

/-- Euclidean distance of the concrete pair from the origin to (3, 4). -/
theorem dist_m00_m34 : pairDist (m00, m34) = 5 := by
  simp only [pairDist, pairDx, pairDy, m00, m34]
  norm_num
  rw [show ((25:ℝ)) = 5 ^ 2 by norm_num, Real.sqrt_sq (by norm_num : (0:ℝ) ≤ 5)]

/-- Time delta of the concrete pair from the origin to (3, 4): one second. -/
theorem dt_m00_m34 : pairDt (m00, m34) = 1 := by
  simp only [pairDt, m00, m34]; norm_num

/-- Time delta of the degenerate pair that repeats the origin sample. -/
theorem dt_m00_m00 : pairDt (m00, m00) = 0 := by
  simp only [pairDt, m00]; norm_num

/-- Instantaneous velocity of the degenerate pair is the guarded zero. -/
theorem v_m00_m00 : pairV (m00, m00) = 0 := by
  simp only [pairV, dt_m00_m00]; norm_num

/-- Filter predicate of the velocity loop is unchanged by page-coordinate
erasure. -/
theorem scrub_filter_pred :
    (fun pr => decide (0 < pairDt pr)) ∘ Prod.map scrubSample scrubSample
      = fun pr : MouseSample × MouseSample => decide (0 < pairDt pr) := by
  funext pr; obtain ⟨a, b⟩ := pr; rfl

/-- Velocity of a pair is unchanged by page-coordinate erasure. -/
theorem scrub_vel_fun :
    (fun pr : MouseSample × MouseSample => pairDist pr / (pairDt pr : ℝ)) ∘
        Prod.map scrubSample scrubSample
      = fun pr => pairDist pr / (pairDt pr : ℝ) := by
  funext pr; obtain ⟨a, b⟩ := pr; rfl

/-- Movement-pattern entry of a pair is unchanged by page-coordinate
erasure. -/
theorem scrub_entry_fun :
    (fun pr : MouseSample × MouseSample =>
        PatternEntry.mk (pairDx pr) (pairDy pr) (pairDt pr) (pairV pr)) ∘
      Prod.map scrubSample scrubSample
      = fun pr => PatternEntry.mk (pairDx pr) (pairDy pr) (pairDt pr) (pairV pr) := by
  funext pr; obtain ⟨a, b⟩ := pr; rfl

/-- Distance of a pair is unchanged by page-coordinate erasure. -/
theorem scrub_dist_fun :
    pairDist ∘ Prod.map scrubSample scrubSample = pairDist := by
  funext pr; obtain ⟨a, b⟩ := pr; rfl

/-- Mouse aggregates depend only on the `x`, `y`, `t` fields of the stored
samples: erasing page coordinates leaves them unchanged. -/
theorem mouseMetricsOf_scrub (ms : List MouseSample) :
    mouseMetricsOf (ms.map scrubSample) = mouseMetricsOf ms := by
  have hzip : (ms.map scrubSample).zip (ms.map scrubSample).tail
      = (ms.zip ms.tail).map (Prod.map scrubSample scrubSample) := by
    rw [← List.map_tail, List.zip_map]
  unfold mouseMetricsOf
  rw [hzip, List.length_map]
  by_cases h : 1 < ms.length
  · rw [if_pos h, if_pos h]
    simp only [List.filter_map, List.map_map, scrub_filter_pred, scrub_vel_fun,
      scrub_entry_fun, scrub_dist_fun]
  · rw [if_neg h, if_neg h]

/-- Summary of a scrubbed state equals the summary of the state itself:
`getBiometrics` never reads page coordinates or the marker. -/
theorem getBiometrics_scrub (s : CollectorState) (now : ℤ) (env : Env) :
    getBiometrics (scrub s) now env = getBiometrics s now env := by
  unfold getBiometrics scrub
  simp only [mouseMetricsOf_scrub]

/-- Single matching key-up: appends exactly one record and leaves the
pending marker exactly as it was. -/
theorem trackKeyUp_match_step (s : CollectorState) (e : KeyEventData) (now : ℤ)
    (m : KeydownMarker) (hm : s.lastKeyDown = some m) (hk : e.key = some m.key) :
    (trackKeyUp s e now).keystrokeTimings.length = s.keystrokeTimings.length + 1
    ∧ (trackKeyUp s e now).lastKeyDown = s.lastKeyDown := by
  unfold trackKeyUp
  rw [hm, hk]
  simp

/-- Movement pattern of the pair from the origin to (1, 1) at the same
instant: time delta 0 and the guarded zero velocity. -/
theorem pattern_m00_m11z :
    (mouseMetricsOf [m00, m11z]).movementPattern
      = [{ dx := 1, dy := 1, dt := 0, v := 0 }] := by
  simp only [mouseMetricsOf, List.zip, List.zipWith, List.tail]
  rw [if_pos (by norm_num)]
  simp only [List.map]
  norm_num [pairDx, pairDy, pairDt, pairV, m00, m11z]

/-- Claim C1: the claim states that with at least two keystroke records
`avgFlightTime` is the mean of the capture-time deltas between consecutive
records.  The code instead reads the nonexistent `.t` field of each
record, so after a correctly ordered two-keystroke session the average
flight time is NaN — in particular it is not the number 200, the mean of
the record capture times 100 and 300. -/
theorem avgFlightTime_nan_after_two_keystrokes :
    (getBiometrics twoKeystrokeState 300 env0).keyboard.avgFlightTime = JSNum.nan
    ∧ (getBiometrics twoKeystrokeState 300 env0).keyboard.avgFlightTime ≠ JSNum.num 200 := by
  constructor
  · rfl
  · decide

/-- Claim C2: the claim states that under correctly ordered events every
appended record has `dwellTime ≥ 0` and `flightTime ≥ 0`.  After the
correctly ordered sequence key-down "a" at 0, key-up "a" at 100, key-down
"b" at 200, key-up "b" at 300, the second appended record has
`flightTime = NaN` (the code subtracts the previous record's nonexistent
`.t` field), and NaN fails the JavaScript test `flightTime >= 0`. -/
theorem second_record_flightTime_not_nonneg :
    (twoKeystrokeState.keystrokeTimings.get ⟨1, by decide⟩).flightTime = JSNum.nan
    ∧ ¬ (twoKeystrokeState.keystrokeTimings.get ⟨1, by decide⟩).flightTime.nonneg :=
  ⟨by decide, by decide⟩

/-- Claim C3, counterexample: after key-down "a" at 0 and a matching
key-up at 50 the pending marker is still present (it is never cleared),
and a second key-up of "a" at 100 with no intervening key-down appends a
second record, so the keydown produces two records and not exactly one. -/
theorem keyup_does_not_clear_marker :
    (trackKeyUp oneDownState evA 50).lastKeyDown
        = some { time := 0, key := "a", code := "KeyA" }
    ∧ (trackKeyUp (trackKeyUp oneDownState evA 50) evA 100).keystrokeTimings.length = 2 := by
  decide

/-- Claim C3 (amended): `trackKeyUp` does not clear the pending marker
after appending a record; consequently, from a state whose pending marker
holds key k, a sequence of n key-ups of key k with no intervening key-down
appends exactly n keystroke records — one per key-up — and the marker is
still the same afterwards. -/
theorem applyKeyUps_matching_appends (s : CollectorState) (m : KeydownMarker)
    (evs : List (KeyEventData × ℤ))
    (hm : s.lastKeyDown = some m) (hall : ∀ p ∈ evs, p.1.key = some m.key) :
    (applyKeyUps s evs).keystrokeTimings.length = s.keystrokeTimings.length + evs.length
    ∧ (applyKeyUps s evs).lastKeyDown = some m := by
  induction evs generalizing s with
  | nil => exact ⟨by simp [applyKeyUps], hm⟩
  | cons p rest ih =>
      have h1 := trackKeyUp_match_step s p.1 p.2 m hm (hall p (by simp))
      have h2 := ih (trackKeyUp s p.1 p.2) (h1.2.trans hm)
        (fun q hq => hall q (by simp [hq]))
      have hfold : applyKeyUps s (p :: rest) = applyKeyUps (trackKeyUp s p.1 p.2) rest := rfl
      refine ⟨?_, hfold ▸ h2.2⟩
      rw [hfold, h2.1, h1.1]
      simp [List.length_cons]
      omega

/-- Witness for the amended claim C3: from the state with a pending "a"
marker set at time 0, two key-ups of "a" append two records and the marker
is unchanged. -/
theorem applyKeyUps_matching_appends_witness :
    (applyKeyUps oneDownState [(evA, 50), (evA, 100)]).keystrokeTimings.length
        = oneDownState.keystrokeTimings.length + 2
    ∧ (applyKeyUps oneDownState [(evA, 50), (evA, 100)]).lastKeyDown
        = some { time := 0, key := "a", code := "KeyA" } :=
  applyKeyUps_matching_appends oneDownState { time := 0, key := "a", code := "KeyA" }
    [(evA, 50), (evA, 100)] (by decide) (by decide)

/-- Claim C4, counterexample: for the samples (0,0) at 0 ms, (0,0) at 0 ms
and (3,4) at 1000 ms, the code's average velocity is 5 (it averages only
over the one pair with positive time delta) while the claim's mean over
all pairs — the zero-delta pair contributing velocity 0 — is 5/2, so the
claimed equality fails at this input. -/
theorem avgVelocity_claim_counterexample :
    (mouseMetricsOf [m00, m00, m34]).avgVelocity = 5
    ∧ claimedAvgVelocity [m00, m00, m34] = 5 / 2
    ∧ ¬ ((mouseMetricsOf [m00, m00, m34]).avgVelocity
          = claimedAvgVelocity [m00, m00, m34]) := by
  have h1 : (mouseMetricsOf [m00, m00, m34]).avgVelocity = 5 := by
    simp only [mouseMetricsOf, List.zip, List.zipWith, List.tail]
    rw [if_pos (by norm_num)]
    simp only [List.filter, dt_m00_m00, dt_m00_m34]
    norm_num [dist_m00_m34, dt_m00_m34]
  have h2 : claimedAvgVelocity [m00, m00, m34] = 5 / 2 := by
    simp only [claimedAvgVelocity, List.zip, List.zipWith, List.tail]
    rw [if_neg (by simp)]
    simp only [List.map, v_m00_m00, List.sum_cons, List.sum_nil,
      List.length_cons, List.length_nil]
    rw [show pairV (m00, m34) = 5 by simp only [pairV, dt_m00_m34, dist_m00_m34]; norm_num]
    norm_num
  exact ⟨h1, h2, by rw [h1, h2]; norm_num⟩

/-- Claim C4 (amended): `avgVelocity` is the mean of the instantaneous
velocities of the consecutive sample pairs whose time delta is strictly
positive (0 when there is no such pair); pairs with zero time delta are
excluded from the mean rather than contributing a zero term.  The claim's
concrete example is unaffected: moves at (0,0) at 0 ms and (3,4) at
1000 ms give the movement-pattern entry dx 3, dy 4, dt 1, v 5, and an
average velocity of 5. -/
theorem avgVelocity_eq_filtered_mean :
    (∀ ms : List MouseSample, (mouseMetricsOf ms).avgVelocity = specAvgVelocityPos ms)
    ∧ (mouseMetricsOf [m00, m34]).movementPattern = [{ dx := 3, dy := 4, dt := 1, v := 5 }]
    ∧ (mouseMetricsOf [m00, m34]).avgVelocity = 5 := by
  refine ⟨?_, ?_, ?_⟩
  · intro ms
    unfold mouseMetricsOf specAvgVelocityPos
    rw [filterMap_guard_eq_map_filter (fun pr => 0 < pairDt pr)
      (fun pr => pairDist pr / (pairDt pr : ℝ)) (ms.zip ms.tail)]
    by_cases h : 1 < ms.length
    · rw [if_pos h]
      by_cases hv :
          ((ms.zip ms.tail).filter fun pr => decide (0 < pairDt pr)).map
            (fun pr => pairDist pr / (pairDt pr : ℝ)) = []
      · simp only [hv]
        simp
      · simp only [if_neg hv]
        rw [if_pos (List.length_pos.mpr hv)]
    · rw [if_neg h]
      rw [tail_eq_nil_of_le_one h]
      simp [List.zip_nil_right]
  · simp only [mouseMetricsOf, List.zip, List.zipWith, List.tail]
    rw [if_pos (by norm_num)]
    simp only [List.map, pairV, dt_m00_m34, dist_m00_m34]
    norm_num [pairDx, pairDy, m00, m34]
  · simp only [mouseMetricsOf, List.zip, List.zipWith, List.tail]
    rw [if_pos (by norm_num)]
    simp only [List.filter, dt_m00_m34, dist_m00_m34]
    norm_num [dist_m00_m34, dt_m00_m34]

/-- Claim C5, counterexample: with no mouse samples the summary's
`totalDistance` is not the number 0 — the source assigns the property
only in the `length > 1` branch, so the field is absent (undefined). -/
theorem totalDistance_absent_counterexample :
    (getBiometrics (reset 0) 0 env0).mouse.totalDistance = none
    ∧ (none : Option ℝ) ≠ some 0 := ⟨rfl, by simp⟩

/-- Claim C5 (amended): `getSummary()` always succeeds (the reducer is a
total function), and missing data degrades the aggregates: with fewer than
two mouse samples `avgVelocity = 0`, `movementPattern` is empty and
`totalDistance` is left absent (undefined, not 0); with no keystroke
records `avgDwellTime = 0`, `avgFlightTime = 0` and `keyPattern` is
empty. -/
theorem summary_degrades_to_defaults (s : CollectorState) (now : ℤ) (env : Env) :
    (s.mouseMovements.length < 2 →
      (getBiometrics s now env).mouse.avgVelocity = 0
      ∧ (getBiometrics s now env).mouse.movementPattern = []
      ∧ (getBiometrics s now env).mouse.totalDistance = none)
    ∧ (s.keystrokeTimings = [] →
      (getBiometrics s now env).keyboard.avgDwellTime = 0
      ∧ (getBiometrics s now env).keyboard.avgFlightTime = JSNum.num 0
      ∧ (getBiometrics s now env).keyboard.keyPattern = []) := by
  constructor
  · intro h
    have h' : ¬ 1 < s.mouseMovements.length := by omega
    unfold getBiometrics mouseMetricsOf
    rw [if_neg h']
    exact ⟨rfl, rfl, rfl⟩
  · intro h
    unfold getBiometrics keyboardMetricsOf
    rw [h]
    exact ⟨rfl, rfl, rfl⟩

/-- Witness for the amended claim C5: the freshly reset state has fewer
than two mouse samples and no keystroke records, and all six aggregate
fields take their degraded values. -/
theorem summary_degrades_to_defaults_witness :
    (getBiometrics (reset 0) 0 env0).mouse.avgVelocity = 0
    ∧ (getBiometrics (reset 0) 0 env0).mouse.movementPattern = []
    ∧ (getBiometrics (reset 0) 0 env0).mouse.totalDistance = none
    ∧ (getBiometrics (reset 0) 0 env0).keyboard.avgDwellTime = 0
    ∧ (getBiometrics (reset 0) 0 env0).keyboard.avgFlightTime = JSNum.num 0
    ∧ (getBiometrics (reset 0) 0 env0).keyboard.keyPattern = [] := by
  obtain ⟨hm, hk⟩ := summary_degrades_to_defaults (reset 0) 0 env0
  obtain ⟨a, b, c⟩ := hm (by decide)
  obtain ⟨d, e, f⟩ := hk (by decide)
  exact ⟨a, b, c, d, e, f⟩

/-- Claim C6: every movement-pattern entry whose time delta is 0 has
velocity exactly 0 — the division is guarded by `dt > 0` and the zero
branch is taken, so no NaN or infinity can arise. -/
theorem movementPattern_zero_dt_zero_velocity (ms : List MouseSample) (e : PatternEntry)
    (he : e ∈ (mouseMetricsOf ms).movementPattern) (hdt : e.dt = 0) : e.v = 0 := by
  unfold mouseMetricsOf at he
  by_cases h : 1 < ms.length
  · rw [if_pos h] at he
    simp only [List.mem_map] at he
    obtain ⟨pr, _, hepr⟩ := he
    cases hepr
    have hdt' : pairDt pr = 0 := hdt
    simp [pairV, hdt']
  · rw [if_neg h] at he
    simp at he

/-- Witness for claim C6: samples (0,0) and (1,1) both at elapsed time 0
produce the pattern entry with dt 0, which the theorem sends to velocity
0. -/
theorem movementPattern_zero_dt_zero_velocity_witness :
    ({ dx := 1, dy := 1, dt := 0, v := 0 } : PatternEntry).v = 0 :=
  movementPattern_zero_dt_zero_velocity [m00, m11z] { dx := 1, dy := 1, dt := 0, v := 0 }
    (by rw [pattern_m00_m11z]; exact List.mem_singleton.mpr rfl) rfl

/-- Claim C7: a key-up with no pending marker, or whose key differs from
the pending marker's key, leaves the whole state unchanged — in particular
no keystroke record is appended. -/
theorem trackKeyUp_unmatched_id (s : CollectorState) (e : KeyEventData) (now : ℤ)
    (h : ∀ m : KeydownMarker, s.lastKeyDown = some m → e.key ≠ some m.key) :
    trackKeyUp s e now = s := by
  unfold trackKeyUp
  cases hm : s.lastKeyDown with
  | none => rfl
  | some marker =>
      cases hk : e.key with
      | none => rfl
      | some k =>
          have hne : k ≠ marker.key := fun heq => h marker hm (hk.trans (by rw [heq]))
          dsimp only
          rw [if_pos hne]

/-- Witness for claim C7: a key-up of "a" on the freshly reset state,
which has no pending marker, changes nothing. -/
theorem trackKeyUp_unmatched_id_witness : trackKeyUp (reset 0) evA 7 = reset 0 :=
  trackKeyUp_unmatched_id (reset 0) evA 7 (fun _ hm => Option.noConfusion hm)

/-- Claim C8: `getSummary()` viewed as a state transformer returns the
accumulators unchanged — the body assigns to no instance field — and a
second call on the resulting state with the same clock reading and
environment returns the identical summary. -/
theorem getBiometrics_nonmutating_idempotent (s : CollectorState) (now : ℤ) (env : Env) :
    (getBiometricsRun s now env).1 = s
    ∧ (getBiometricsRun ((getBiometricsRun s now env).1) now env).2
        = (getBiometricsRun s now env).2 :=
  ⟨rfl, rfl⟩

/-- Claim C9: each handler writes only its own part of the state —
`trackMouse` leaves the keystroke list, the marker and the start time
unchanged; `trackKeyDown` leaves the mouse samples, the keystroke list and
the start time unchanged; `trackKeyUp` leaves the mouse samples, the
marker and the start time unchanged. -/
theorem handlers_frame (s : CollectorState) (me : MouseEventData) (ke : KeyEventData) (now : ℤ) :
    ((trackMouse s me now).keystrokeTimings = s.keystrokeTimings
      ∧ (trackMouse s me now).lastKeyDown = s.lastKeyDown
      ∧ (trackMouse s me now).startTime = s.startTime)
    ∧ ((trackKeyDown s ke now).mouseMovements = s.mouseMovements
      ∧ (trackKeyDown s ke now).keystrokeTimings = s.keystrokeTimings
      ∧ (trackKeyDown s ke now).startTime = s.startTime)
    ∧ ((trackKeyUp s ke now).mouseMovements = s.mouseMovements
      ∧ (trackKeyUp s ke now).lastKeyDown = s.lastKeyDown
      ∧ (trackKeyUp s ke now).startTime = s.startTime) := by
  refine ⟨⟨rfl, rfl, rfl⟩, ?_, ?_⟩
  · unfold trackKeyDown
    cases ke.key with
    | none => exact ⟨rfl, rfl, rfl⟩
    | some k =>
        dsimp only
        split
        · exact ⟨rfl, rfl, rfl⟩
        · exact ⟨rfl, rfl, rfl⟩
  · unfold trackKeyUp
    cases hm : s.lastKeyDown with
    | none => exact ⟨rfl, hm, rfl⟩
    | some marker =>
        cases ke.key with
        | none => exact ⟨rfl, hm, rfl⟩
        | some k =>
            dsimp only
            split
            · exact ⟨rfl, hm, rfl⟩
            · exact ⟨rfl, rfl, rfl⟩

/-- Claim C10: the summary does not depend on the page coordinates of the
stored mouse samples or on the `code` of the pending marker: two states
that agree after erasing exactly those fields yield equal summaries. -/
theorem getBiometrics_ignores_page_and_code (s₁ s₂ : CollectorState) (now : ℤ) (env : Env)
    (h : scrub s₁ = scrub s₂) :
    getBiometrics s₁ now env = getBiometrics s₂ now env := by
  rw [← getBiometrics_scrub s₁, h, getBiometrics_scrub]

/-- Witness for claim C10: two concrete states differing only in the page
coordinates of their one sample and the `code` of their marker produce the
same summary. -/
theorem getBiometrics_ignores_page_and_code_witness :
    getBiometrics sPage1 5 env0 = getBiometrics sPage2 5 env0 :=
  getBiometrics_ignores_page_and_code sPage1 sPage2 5 env0 (by decide)
